import Mathlib

set_option maxRecDepth 8000

/-!
Verification of the grading-supervision tool (src/main.py) against its
natural-language specification.  The Python source is shallowly embedded:
wire timestamps become UTC instants (`Int` seconds since the Unix epoch,
with malformed wire strings represented explicitly), Python exceptions
become `Except PyError`, and the Streamlit batch loop becomes a pure
fold over course inputs.
-/

/-- Python exceptions relevant to the embedded code: `ValueError` (raised by
`datetime.fromisoformat` and by `float(...)` on malformed input) and
`KeyError` (raised by indexing a dict with a missing key). -/
inductive PyError
  | valueError
  | keyError
deriving Repr, DecidableEq

deriving instance DecidableEq for Except

/-- Wire value of the submission field `score`: either a numeric value, or a
value on which the Python call `float(...)` raises `ValueError`. -/
inductive ScoreV
  | num (r : Rat)
  | malformed
deriving Repr, DecidableEq

/-- Wire value of the assignment field `due_at`: a well-formed ISO-8601
string (carrying the UTC instant it denotes, in seconds), or a malformed
string on which `datetime.fromisoformat` raises `ValueError`. -/
inductive DueWire
  | valid (t : Int)
  | malformed
deriving Repr, DecidableEq

/-- The 8 per-cell status labels written into the matrix (the `text_celda`
values of main.py lines 178-203; `calificada n` is the cell holding the
integer score string `str(int(float(score)))`). -/
inductive Celda
  | noIniciado
  | calificadaSinNota
  | notaNoCoincide
  | calificada (n : Int)
  | entregadoEnPlazo
  | noEntregadoEnPlazo
  | noCalificadoEnPlazo
  | noEntregoNada
deriving Repr, DecidableEq

/-- The per-assignment timeline status (`estado_info`, main.py lines 142-148). -/
inductive EstadoInfo
  | noIniciado
  | enPlazo
  | plazoVencido
deriving Repr, DecidableEq

/-- The per-course rollup status (`estado`, main.py lines 388-399). -/
inductive EstadoResumen
  | noConfigurado
  | hayCosasMal
  | todoBien
deriving Repr, DecidableEq

/-- Warnings emitted via `st.warning` during course processing. -/
inductive Aviso
  | emptyRoster
  | missingDueDate (tarea : String)
deriving Repr, DecidableEq

/-- A Canvas submission record, with the fields main.py reads.  `graded_at`
is kept as the raw wire string because the code only tests its truthiness
(`elif graded_at:`), never parses it. -/
structure Submission where
  user_id : Nat
  workflow_state : String
  submitted_at : Option String
  graded_at : Option String
  score : Option ScoreV
  grade_matches_current_submission : Option Bool
deriving Repr, DecidableEq

/-- A Canvas assignment together with the submissions its endpoint returns
(the code fetches them per assignment, main.py line 166). -/
structure Asg where
  id : Nat
  name : String
  due_at : Option DueWire
  submissions : List Submission
deriving Repr, DecidableEq

/-- Role-holder info dict built at main.py lines 271-277. -/
structure RolInfo where
  profesor : String
  correoProfesor : String
  tutor : String
  director : String
  correoDirector : String
deriving Repr, DecidableEq

/-- Python truthiness of an optional string (`elif graded_at:`):
`None` and the empty string are falsy. -/
def pyTruthy : Option String → Bool
  | none => false
  | some s => !(s == "")

/-- Python `int(float(r))` on a numeric value: truncation toward zero.
A `Rat` is stored in lowest terms with positive denominator, so dividing
numerator by denominator with `Int.div` (which rounds toward zero)
computes the truncation. -/
def pyTrunc (r : Rat) : Int :=
  Int.tdiv r.num (Int.ofNat r.den)

/-- Python `float(...)` then `int(...)` on the raw score wire value
(main.py line 189): raises `ValueError` on a malformed value. -/
def parseScoreInt : ScoreV → Except PyError Int
  | ScoreV.num r => Except.ok (pyTrunc r)
  | ScoreV.malformed => Except.error PyError.valueError

/-- Models `datetime.fromisoformat(due_at.replace("Z", "+00:00"))`
(main.py line 129): a well-formed ISO string yields the UTC instant it
denotes, a malformed one raises `ValueError`. -/
def parseDue : DueWire → Except PyError Int
  | DueWire.valid t => Except.ok t
  | DueWire.malformed => Except.error PyError.valueError

/-- Grading deadline (main.py line 131): `due_date_utc + timedelta(days=9)`,
in seconds. -/
def deadlineUTC (due : Int) : Int :=
  due + 9 * 86400

/-- Civil date to days since the Unix epoch (proleptic Gregorian),
used to give concrete instants for the examples of the spec. -/
def diasDesdeEpoca (y m d : Int) : Int :=
  let yy := if m ≤ 2 then y - 1 else y
  let era := Int.fdiv yy 400
  let yoe := yy - era * 400
  let mshift := if 2 < m then m - 3 else m + 9
  let doy := Int.fdiv (153 * mshift + 2) 5 + d - 1
  let doe := yoe * 365 + Int.fdiv yoe 4 - Int.fdiv yoe 100 + doy
  era * 146097 + doe - 719468

/-- UTC midnight of a civil date, in seconds since the Unix epoch. -/
def epocaDe (y m d : Int) : Int :=
  86400 * diasDesdeEpoca y m d

/-- The civil date (as a day count) an instant falls on in a zone with a
fixed offset `tz` (in seconds): models `astimezone(tz_local).date()`. -/
def localDate (tz t : Int) : Int :=
  Int.fdiv (t + tz) 86400

/-- Delivery predicate (main.py `es_entrega_real`, lines 45-56): true iff
the submission exists and is marked submitted or has a submission
timestamp. -/
def es_entrega_real : Option Submission → Bool
  | none => false
  | some s => (s.workflow_state == "submitted") || s.submitted_at.isSome

/-- The submission lookup map built at main.py line 170
(`{s.get("user_id"): s for s in submissions}`): the last submission with a
given user id wins, lookup of an absent id yields `None`. -/
def subsLookup (l : List Submission) (sid : Nat) : Option Submission :=
  (l.filter (fun s => s.user_id == sid)).getLast?

/-- The per-cell classification of main.py lines 172-203, for the possibly
missing submission of one student against the three UTC instants.  A malformed
score reached on the graded-with-score path raises `ValueError`. -/
def clasificarCelda (now due dl : Int) (o : Option Submission) : Except PyError Celda :=
  let delivered := es_entrega_real o
  let graded_at : Option String := match o with
    | none => none
    | some s => s.graded_at
  if now < due then Except.ok Celda.noIniciado
  else if pyTruthy graded_at then
    let score : Option ScoreV := match o with
      | none => none
      | some s => s.score
    match score with
    | none => Except.ok Celda.calificadaSinNota
    | some sv =>
      let gm : Option Bool := match o with
        | none => none
        | some s => s.grade_matches_current_submission
      if gm = some false then Except.ok Celda.notaNoCoincide
      else
        match parseScoreInt sv with
        | Except.error e => Except.error e
        | Except.ok n => Except.ok (Celda.calificada n)
  else if now ≤ dl then
    Except.ok (if delivered then Celda.entregadoEnPlazo else Celda.noEntregadoEnPlazo)
  else
    Except.ok (if delivered then Celda.noCalificadoEnPlazo else Celda.noEntregoNada)

/-- The per-assignment timeline status (main.py lines 142-148). -/
def estadoInfoDe (now due : Int) : EstadoInfo :=
  if due > now then EstadoInfo.noIniciado
  else if now > deadlineUTC due then EstadoInfo.plazoVencido
  else EstadoInfo.enPlazo

/-- One row of the `asignaciones_info` table (main.py lines 155-161), with
dates abstracted to local day numbers.  `diasAtraso = none` models the
string "No aplica". -/
structure AsgInfoRow where
  tarea : String
  fechaEntrega : Int
  plazoCalif : Int
  diasAtraso : Option Int
  estado : EstadoInfo
deriving Repr, DecidableEq

/-- Builds the timeline row for a processed assignment (main.py lines
133-161): display dates are local, `dias_atraso` clamps at 0 and is shown
only when the grading window is over. -/
def mkAsgRow (now nld tz : Int) (nombre : String) (due : Int) : AsgInfoRow :=
  let dl := deadlineUTC due
  let estado := estadoInfoDe now due
  let d0 := nld - localDate tz dl
  let dias := if d0 < 0 then 0 else d0
  { tarea := nombre
    fechaEntrega := localDate tz due
    plazoCalif := localDate tz dl
    diasAtraso := if estado = EstadoInfo.plazoVencido then some dias else none
    estado := estado }

/-- The inner `for sid in students` loop of main.py lines 172-203: classify
every student, propagating the first exception. -/
def mapCeldas (f : Nat → Except PyError Celda) : List Nat → Except PyError (List Celda)
  | [] => Except.ok []
  | x :: xs =>
    match f x with
    | Except.error e => Except.error e
    | Except.ok c =>
      match mapCeldas f xs with
      | Except.error e => Except.error e
      | Except.ok cs => Except.ok (c :: cs)

/-- Student ids in the insertion order of the Python dict built at main.py
lines 97-101 (first occurrence of each user id keeps its position). -/
def studentIds (enr : List (Nat × String)) : List Nat :=
  enr.foldl (fun ks e => if ks.contains e.1 then ks else ks ++ [e.1]) []

/-- The `for assignment in assignments` loop of main.py lines 120-203:
assignments without a due date are skipped, a malformed due date or a
malformed graded score raises out of the whole loop.  Produces, per
processed assignment, its timeline row and its column of cells (one per
student). -/
def procesarAsignaciones (now nld tz : Int) (sids : List Nat) :
    List Asg → Except PyError (List (AsgInfoRow × List Celda))
  | [] => Except.ok []
  | a :: rest =>
    match a.due_at with
    | none => procesarAsignaciones now nld tz sids rest
    | some w =>
      match parseDue w with
      | Except.error e => Except.error e
      | Except.ok due =>
        match mapCeldas
            (fun sid => clasificarCelda now due (deadlineUTC due) (subsLookup a.submissions sid))
            sids with
        | Except.error e => Except.error e
        | Except.ok celdas =>
          match procesarAsignaciones now nld tz sids rest with
          | Except.error e => Except.error e
          | Except.ok cola => Except.ok ((mkAsgRow now nld tz a.name due, celdas) :: cola)

/-- Result of `procesar_curso`: `df = none` models the `None` DataFrame of
the empty-roster early return, `info = none` models the empty role dict
`{}` returned on that same path. -/
structure CursoResult where
  df : Option (List (List Celda))
  timeline : List AsgInfoRow
  processed : List String
  warnings : List Aviso
  info : Option RolInfo
deriving Repr, DecidableEq

/-- `procesar_curso` (main.py lines 71-279), with `now_utc` and the local
date passed explicitly (the code samples them once per invocation, lines
115 and 118).  The matrix `df` is stored as one column of cells per
processed assignment; students with no enrollment produce the early return
`(None, [], {})` with a warning. -/
def procesar_curso (now nld tz : Int) (enrollments : List (Nat × String))
    (asgs : List Asg) (roles : RolInfo) : Except PyError CursoResult :=
  let sids := studentIds enrollments
  if sids.isEmpty then
    Except.ok { df := none, timeline := [], processed := [],
                warnings := [Aviso.emptyRoster], info := none }
  else
    match procesarAsignaciones now nld tz sids asgs with
    | Except.error e => Except.error e
    | Except.ok pares =>
      Except.ok { df := some (pares.map Prod.snd)
                  timeline := pares.map Prod.fst
                  processed := (pares.map Prod.fst).map AsgInfoRow.tarea
                  warnings := asgs.filterMap (fun a =>
                    match a.due_at with
                    | none => some (Aviso.missingDueDate a.name)
                    | some _ => none)
                  info := some roles }

/-- Membership test of main.py lines 378 and 394: the four "non-compliant"
cell labels. -/
def esMalo : Celda → Bool
  | Celda.noCalificadoEnPlazo => true
  | Celda.noEntregoNada => true
  | Celda.notaNoCoincide => true
  | Celda.calificadaSinNota => true
  | _ => false

/-- `outside_plazo_count` (main.py lines 376-379). -/
def outsidePlazoCount (cells : List Celda) : Nat :=
  cells.countP (fun c => esMalo c)

/-- The rollup status of main.py lines 388-399: `No configurado` when no
assignment had a due date, else red/green by presence of a non-compliant
cell. -/
def resumenEstado (processed : List String) (cells : List Celda) : EstadoResumen :=
  if processed.isEmpty then EstadoResumen.noConfigurado
  else if cells.any (fun c => esMalo c) then EstadoResumen.hayCosasMal
  else EstadoResumen.todoBien

/-- Inputs the external API would return for one requested course id:
`found = false` models a 404 on `/courses/{id}` (main.py line 319). -/
structure CourseSpec where
  cid : String
  found : Bool
  enrollments : List (Nat × String)
  assignments : List Asg
  roles : RolInfo
deriving Repr, DecidableEq

/-- One row of the final cross-course summary table. -/
inductive ResumenRow
  | inexistente (cid : String)
  | fila (cid : String) (estado : EstadoResumen) (errores : Nat)
deriving Repr, DecidableEq

/-- Builds the summary row of a found course from the `procesar_curso` result
(main.py lines 359-414).  The code first evaluates
`info_curso["Profesor"]` (line 361), which raises `KeyError` when
`procesar_curso` returned the empty dict. -/
def resumenDeCurso (cid : String) (r : CursoResult) : Except PyError ResumenRow :=
  match r.info with
  | none => Except.error PyError.keyError
  | some _ =>
    let cells := (r.df.getD []).flatten
    Except.ok (ResumenRow.fila cid (resumenEstado r.processed cells) (outsidePlazoCount cells))

/-- The body of the `try:` block for one found course (main.py lines
348-414): process the course with the `k`-th time samples, then build its
summary row; any exception propagates to the handler of the batch loop. -/
def procesaYResume (clock lclock : Nat → Int) (tz : Int) (k : Nat)
    (c : CourseSpec) : Except PyError ResumenRow :=
  match procesar_curso (clock k) (lclock k) tz c.enrollments c.assignments c.roles with
  | Except.error e => Except.error e
  | Except.ok r => resumenDeCurso c.cid r

/-- Index of the next unused time sample after handling course `c`:
`procesar_curso` samples the clock (lines 115 and 118) only after the
empty-roster check, so an empty-roster course consumes no sample. -/
def siguienteMuestra (k : Nat) (c : CourseSpec) : Nat :=
  if (studentIds c.enrollments).isEmpty then k else k + 1

/-- The batch loop over course ids (main.py lines 316-417): a course whose
detail fetch 404s gets an `Inexistente` row; a found course is processed
and summarised inside `try`, and on any exception the `except` branch only
prints an error -- no summary row is appended. -/
def runBatchAux (clock lclock : Nat → Int) (tz : Int) : Nat → List CourseSpec → List ResumenRow
  | _, [] => []
  | k, c :: cs =>
    if c.found then
      match procesaYResume clock lclock tz k c with
      | Except.error _ => runBatchAux clock lclock tz (siguienteMuestra k c) cs
      | Except.ok row => row :: runBatchAux clock lclock tz (siguienteMuestra k c) cs
    else ResumenRow.inexistente c.cid :: runBatchAux clock lclock tz k cs

/-- The whole batch run, starting from the first time sample. -/
def runBatch (clock lclock : Nat → Int) (tz : Int) (cs : List CourseSpec) : List ResumenRow :=
  runBatchAux clock lclock tz 0 cs

/-! ## Definitions taken from the words of the specification (for comparison) -/

/-- Modelled from the spec, section 4.2: the transition table as written,
evaluated in priority order over abstract submission facts, first match
wins.  Rule 4 reports the integer-truncated score. -/
def specStatus (now due deadline : Int) (delivered graded : Bool)
    (score : Option Rat) (gm : Option Bool) : Celda :=
  if now < due then Celda.noIniciado
  else if graded && score.isNone then Celda.calificadaSinNota
  else if graded && (gm == some false) then Celda.notaNoCoincide
  else if graded then Celda.calificada (pyTrunc (score.getD 0))
  else if now ≤ deadline then
    (if delivered then Celda.entregadoEnPlazo else Celda.noEntregadoEnPlazo)
  else
    (if delivered then Celda.noCalificadoEnPlazo else Celda.noEntregoNada)

/-- Spec-side fact: `graded_at` is set. -/
def gradedSet : Option Submission → Bool
  | none => false
  | some s => s.graded_at.isSome

/-- Spec-side fact: the numeric score, when present and numeric. -/
def scoreNumDe : Option Submission → Option Rat
  | none => none
  | some s =>
    match s.score with
    | some (ScoreV.num r) => some r
    | _ => none

/-- Spec-side fact: the `grade_matches_current_submission` flag. -/
def gmDe : Option Submission → Option Bool
  | none => none
  | some s => s.grade_matches_current_submission

/-- Wire well-formedness of a submission: a present `graded_at` is a
non-empty timestamp string and a present `score` is numeric or null. -/
def wfSub : Option Submission → Bool
  | none => true
  | some s => (s.graded_at != some "") && (s.score != some ScoreV.malformed)

/-- The score field alone is null or numeric. -/
def scoreOkS (s : Submission) : Bool :=
  s.score != some ScoreV.malformed

/-- The score field of a possibly-missing submission is null or numeric. -/
def scoreOk : Option Submission → Bool
  | none => true
  | some s => scoreOkS s

/-- The classification-relevant view of a course result: everything except
the locally-rendered dates and day counts of the timeline rows. -/
def vistaClasificacion (r : CursoResult) :
    Option (List (List Celda)) × List EstadoInfo × List String × List Aviso × Option RolInfo :=
  (r.df, r.timeline.map AsgInfoRow.estado, r.processed, r.warnings, r.info)

/-- The timeline row an assignment contributes (none when skipped). -/
def filaLineaDe (now nld tz : Int) (a : Asg) : Option AsgInfoRow :=
  match a.due_at with
  | some (DueWire.valid t) => some (mkAsgRow now nld tz a.name t)
  | _ => none

/-- Modelled from the spec, sections 4.1 and 9 (claim C6): a variant of the
assignment loop in which the current instant is resampled once per
processed assignment, assignment number `i` of the loop reading clock
sample `k + i`. -/
def procesarAsignacionesPerAsg (clock lclock : Nat → Int) (tz : Int) (sids : List Nat) :
    Nat → List Asg → Except PyError (List (AsgInfoRow × List Celda))
  | _, [] => Except.ok []
  | k, a :: rest =>
    match a.due_at with
    | none => procesarAsignacionesPerAsg clock lclock tz sids k rest
    | some w =>
      match parseDue w with
      | Except.error e => Except.error e
      | Except.ok due =>
        match mapCeldas
            (fun sid =>
              clasificarCelda (clock k) due (deadlineUTC due) (subsLookup a.submissions sid))
            sids with
        | Except.error e => Except.error e
        | Except.ok celdas =>
          match procesarAsignacionesPerAsg clock lclock tz sids (k + 1) rest with
          | Except.error e => Except.error e
          | Except.ok cola =>
            Except.ok ((mkAsgRow (clock k) (lclock k) tz a.name due, celdas) :: cola)

/-- Modelled from the spec (claim C6): `procesar_curso` under the
resample-per-assignment reading of section 4.1. -/
def procesar_curso_per_asg (clock lclock : Nat → Int) (tz : Int) (k : Nat)
    (enrollments : List (Nat × String)) (asgs : List Asg) (roles : RolInfo) :
    Except PyError CursoResult :=
  let sids := studentIds enrollments
  if sids.isEmpty then
    Except.ok { df := none, timeline := [], processed := [],
                warnings := [Aviso.emptyRoster], info := none }
  else
    match procesarAsignacionesPerAsg clock lclock tz sids k asgs with
    | Except.error e => Except.error e
    | Except.ok pares =>
      Except.ok { df := some (pares.map Prod.snd)
                  timeline := pares.map Prod.fst
                  processed := (pares.map Prod.fst).map AsgInfoRow.tarea
                  warnings := asgs.filterMap (fun a =>
                    match a.due_at with
                    | none => some (Aviso.missingDueDate a.name)
                    | some _ => none)
                  info := some roles }

/-! ## Concrete fixtures used by witnesses and counterexamples -/

/-- A role-holder record for concrete runs. -/
def rolesEj : RolInfo :=
  { profesor := "P", correoProfesor := "p", tutor := "t",
    director := "D", correoDirector := "d" }

/-- Constant clock for concrete batch runs. -/
def clkConst : Nat → Int := fun _ => 1000

/-- Advancing clock: sample `n` is taken `n * 1000000` seconds in. -/
def clkAvanza : Nat → Int := fun n => 1000000 * n

/-- Course "111": one student, one assignment due at instant 0, no
submissions. -/
def curso111 : CourseSpec :=
  { cid := "111", found := true, enrollments := [(1, "Ana")],
    assignments := [{ id := 1, name := "T1", due_at := some (DueWire.valid 0),
                      submissions := [] }],
    roles := rolesEj }

/-- Course "bad": one assignment whose due date is malformed. -/
def cursoBad : CourseSpec :=
  { cid := "bad", found := true, enrollments := [(2, "Beto")],
    assignments := [{ id := 2, name := "T2", due_at := some DueWire.malformed,
                      submissions := [] }],
    roles := rolesEj }

/-- Course "222": like course "111". -/
def curso222 : CourseSpec :=
  { cid := "222", found := true, enrollments := [(3, "Caro")],
    assignments := [{ id := 3, name := "T3", due_at := some (DueWire.valid 0),
                      submissions := [] }],
    roles := rolesEj }

/-- Course "vacio": found, but with no student enrollments. -/
def cursoVacio : CourseSpec :=
  { cid := "vacio", found := true, enrollments := [], assignments := [],
    roles := rolesEj }

/-- Two assignments for the C6 exhibits: the first already due, the second
due at instant 500. -/
def asgsC6 : List Asg :=
  [{ id := 1, name := "T1", due_at := some (DueWire.valid (-100)), submissions := [] },
   { id := 2, name := "T2", due_at := some (DueWire.valid 500), submissions := [] }]

/-- A graded submission whose score wire value is malformed. -/
def subMalScore : Submission :=
  { user_id := 1, workflow_state := "submitted", submitted_at := some "2024-01-02T00:00:00Z",
    graded_at := some "2024-01-03T00:00:00Z", score := some ScoreV.malformed,
    grade_matches_current_submission := none }

/-- A graded submission with score 17.9 and a matching grade. -/
def subBuena : Submission :=
  { user_id := 1, workflow_state := "submitted", submitted_at := some "2024-01-02T00:00:00Z",
    graded_at := some "2024-01-03T00:00:00Z", score := some (ScoreV.num (mkRat 179 10)),
    grade_matches_current_submission := some true }

example : pyTrunc (mkRat 179 10) = 17 := by decide
example : pyTrunc (mkRat (-179) 10) = -17 := by decide
example : clasificarCelda 1000 0 777600 (some subBuena) = Except.ok (Celda.calificada 17) := by decide
example : clasificarCelda 1000 0 777600 none = Except.ok Celda.noEntregadoEnPlazo := by decide
example : clasificarCelda 1000000 0 777600 none = Except.ok Celda.noEntregoNada := by decide
example : deadlineUTC (epocaDe 2024 1 1) = epocaDe 2024 1 10 := by decide
example : epocaDe 2024 1 1 = 19723 * 86400 := by decide

/-! ## Helper lemmas -/

/-- The only raising path of the cell classifier is the graded-with-score
path on a malformed score: with a null-or-numeric score it always returns
a label. -/
lemma lema_celda_ok (now due dl : Int) (o : Option Submission)
    (h : scoreOk o = true) : ∃ c, clasificarCelda now due dl o = Except.ok c := by
  cases o with
  | none =>
    simp only [clasificarCelda, pyTruthy]
    split_ifs <;> exact ⟨_, rfl⟩
  | some s =>
    obtain ⟨uid, ws, sat, gat, sc, gmv⟩ := s
    simp only [scoreOk, scoreOkS, bne_iff_ne, ne_eq] at h
    cases gat with
    | none =>
      simp only [clasificarCelda, pyTruthy]
      split_ifs <;> first | contradiction | exact ⟨_, rfl⟩
    | some g =>
      cases sc with
      | none =>
        simp only [clasificarCelda, pyTruthy]
        split_ifs <;> first | contradiction | exact ⟨_, rfl⟩
      | some sv =>
        cases sv with
        | num r =>
          simp only [clasificarCelda, pyTruthy, parseScoreInt]
          split_ifs <;> first | contradiction | exact ⟨_, rfl⟩
        | malformed => simp at h

/-- A hit in the submission lookup map comes from the fetched list. -/
lemma lema_subsLookup_mem (l : List Submission) (sid : Nat) (s : Submission)
    (h : subsLookup l sid = some s) : s ∈ l := by
  unfold subsLookup at h
  obtain ⟨hne, heq⟩ := List.mem_getLast?_eq_getLast (Option.mem_def.mpr h)
  have hmem : s ∈ l.filter (fun s => s.user_id == sid) := heq ▸ List.getLast_mem hne
  exact List.mem_of_mem_filter hmem

/-- The student loop succeeds when every cell classification succeeds. -/
lemma lema_mapCeldas_ok (f : Nat → Except PyError Celda) (l : List Nat)
    (h : ∀ x ∈ l, ∃ c, f x = Except.ok c) :
    ∃ cs, mapCeldas f l = Except.ok cs := by
  induction l with
  | nil => exact ⟨[], rfl⟩
  | cons x xs ih =>
    obtain ⟨c, hc⟩ := h x (List.mem_cons_self x xs)
    obtain ⟨cs, hcs⟩ := ih (fun y hy => h y (List.mem_cons_of_mem x hy))
    exact ⟨c :: cs, by simp only [mapCeldas, hc, hcs]⟩

/-- With well-formed due dates and scores, the assignment loop succeeds and
produces exactly one timeline row per assignment that has a due date, all
built from the same sampled instant. -/
lemma lema_asgs_ok (now nld tz : Int) (sids : List Nat) (asgs : List Asg)
    (hdue : ∀ a ∈ asgs, a.due_at ≠ some DueWire.malformed)
    (hsc : ∀ a ∈ asgs, ∀ s ∈ a.submissions, scoreOkS s = true) :
    ∃ pares, procesarAsignaciones now nld tz sids asgs = Except.ok pares ∧
      pares.map Prod.fst = asgs.filterMap (filaLineaDe now nld tz) := by
  induction asgs with
  | nil => exact ⟨[], rfl, rfl⟩
  | cons a rest ih =>
    obtain ⟨cola, hcola, hmap⟩ :=
      ih (fun b hb => hdue b (List.mem_cons_of_mem a hb))
         (fun b hb => hsc b (List.mem_cons_of_mem a hb))
    cases hda : a.due_at with
    | none =>
      refine ⟨cola, ?_, ?_⟩
      · simp only [procesarAsignaciones, hda, hcola]
      · simp only [hmap, List.filterMap_cons, filaLineaDe, hda]
    | some w =>
      cases w with
      | malformed => exact absurd hda (hdue a (List.mem_cons_self a rest))
      | valid t =>
        have hcells : ∀ x ∈ sids, ∃ c,
            clasificarCelda now t (deadlineUTC t) (subsLookup a.submissions x) = Except.ok c := by
          intro x _
          apply lema_celda_ok
          cases hlk : subsLookup a.submissions x with
          | none => rfl
          | some s =>
            exact hsc a (List.mem_cons_self a rest) s (lema_subsLookup_mem _ _ _ hlk)
        obtain ⟨cs, hcs⟩ := lema_mapCeldas_ok _ sids hcells
        refine ⟨(mkAsgRow now nld tz a.name t, cs) :: cola, ?_, ?_⟩
        · simp only [procesarAsignaciones, hda, parseDue, hcs, hcola]
        · simp only [List.map_cons, hmap, List.filterMap_cons, filaLineaDe, hda]

/-! ## Claims -/

/-- Claim C1: for every cell of a student against an assignment with a due
date, the classifier follows the transition table of the spec in priority
order, first match winning: `now < due` gives NOT_STARTED; else a set
`graded_at` with a null score gives GRADED_NO_SCORE; else a set `graded_at`
with `grade_matches_current_submission == false` gives GRADE_MISMATCH;
else a set `graded_at` gives GRADED with the integer-truncated score; else
DELIVERED_ON_TIME/PENDING_ON_TIME while `now <= deadline`, and
UNGRADED_LATE/NOT_SUBMITTED after, by the delivered predicate.  Stated as
agreement with `specStatus`, the table transcribed from the spec, on every
wire-well-formed submission. -/
theorem c1_clasificador_sigue_tabla (now due dl : Int) (o : Option Submission)
    (h : wfSub o = true) :
    clasificarCelda now due dl o =
      Except.ok (specStatus now due dl (es_entrega_real o)
        (gradedSet o) (scoreNumDe o) (gmDe o)) := by
  cases o with
  | none =>
    simp [clasificarCelda, specStatus, es_entrega_real, gradedSet, scoreNumDe, gmDe, pyTruthy]
    split_ifs <;> rfl
  | some s =>
    obtain ⟨uid, ws, sat, gat, sc, gmv⟩ := s
    simp only [wfSub, Bool.and_eq_true, bne_iff_ne, ne_eq] at h
    obtain ⟨hg, hs⟩ := h
    cases gat with
    | none =>
      simp [clasificarCelda, specStatus, es_entrega_real, gradedSet, scoreNumDe, gmDe, pyTruthy]
      split_ifs <;> rfl
    | some g =>
      have hgne : (g == "") = false := by
        cases hb : g == "" with
        | false => rfl
        | true => exact absurd (by rw [eq_of_beq hb]) hg
      cases sc with
      | none =>
        simp [clasificarCelda, specStatus, es_entrega_real, gradedSet, scoreNumDe,
          gmDe, pyTruthy, hgne]
        split_ifs <;> rfl
      | some sv =>
        cases sv with
        | malformed => exact absurd rfl hs
        | num r =>
          by_cases hgm : gmv = some false
          · subst hgm
            simp [clasificarCelda, specStatus, es_entrega_real, gradedSet, scoreNumDe,
              gmDe, pyTruthy, hgne]
            split_ifs <;> rfl
          · have hgmb : (gmv == some false) = false := by
              cases hb : gmv == some false with
              | false => rfl
              | true => exact absurd (eq_of_beq hb) hgm
            simp [clasificarCelda, specStatus, es_entrega_real, gradedSet, scoreNumDe,
              gmDe, pyTruthy, hgne, hgm, hgmb, parseScoreInt]
            split_ifs <;> rfl

/-- Witness for C1 at a concrete graded submission with score 17.9. -/
theorem c1_witness :
    wfSub (some subBuena) = true ∧
    clasificarCelda 1000 0 777600 (some subBuena) =
      Except.ok (specStatus 1000 0 777600 (es_entrega_real (some subBuena))
        (gradedSet (some subBuena)) (scoreNumDe (some subBuena)) (gmDe (some subBuena))) :=
  ⟨by decide, c1_clasificador_sigue_tabla 1000 0 777600 (some subBuena) (by decide)⟩

/-- Claim C2 counterexample: the classifier is not total over malformed
score values and does not default them to zero -- a graded submission
whose score wire value is non-numeric makes the cell raise `ValueError`
(which aborts the whole course), instead of producing one of the 8
labels. -/
theorem c2_counterexample :
    clasificarCelda 10 0 777600 (some subMalScore) = Except.error PyError.valueError := by
  decide

/-- Claim C2 (amended): the classifier is total -- exactly one of the 8
labels, with no input falling through -- for every combination of instants
and submission facts whose score field is null or numeric; a non-numeric
score reached on the graded path raises instead of defaulting to zero. -/
theorem c2_total_con_score_valido (now due dl : Int) (o : Option Submission)
    (h : scoreOk o = true) : ∃ c, clasificarCelda now due dl o = Except.ok c :=
  lema_celda_ok now due dl o h

/-- Witness for the amended C2 at a concrete missing submission. -/
theorem c2_witness : scoreOk none = true ∧
    ∃ c, clasificarCelda 10 0 777600 none = Except.ok c :=
  ⟨rfl, c2_total_con_score_valido 10 0 777600 none rfl⟩

/-- Claim C4: the delivered predicate holds iff the submission exists and
either its workflow state is "submitted" or its submission timestamp is
non-null; a missing submission is never delivered. -/
theorem c4_entregado_iff (o : Option Submission) :
    es_entrega_real o = true ↔
      ∃ s, o = some s ∧ (s.workflow_state = "submitted" ∨ s.submitted_at ≠ none) := by
  cases o with
  | none => simp [es_entrega_real]
  | some s => simp [es_entrega_real, Option.isSome_iff_ne_none]

/-- Claim C10: with a null `graded_at`, the cell status is independent of
the score and grade-match fields -- two submissions agreeing on existence,
workflow state, submission timestamp and a null `graded_at` classify
identically whatever their score and `grade_matches_current_submission`. -/
theorem c10_score_irrelevante_sin_calificacion (now due dl : Int) (s1 s2 : Submission)
    (hg1 : s1.graded_at = none) (hg2 : s2.graded_at = none)
    (hw : s1.workflow_state = s2.workflow_state)
    (hs : s1.submitted_at = s2.submitted_at) :
    clasificarCelda now due dl (some s1) = clasificarCelda now due dl (some s2) := by
  obtain ⟨u1, w1, t1, g1, c1, m1⟩ := s1
  obtain ⟨u2, w2, t2, g2, c2, m2⟩ := s2
  have hg1b : g1 = none := hg1
  have hg2b : g2 = none := hg2
  have hwb : w1 = w2 := hw
  have hsb : t1 = t2 := hs
  subst hg1b; subst hg2b; subst hwb; subst hsb
  simp [clasificarCelda, es_entrega_real, pyTruthy]

/-- Two submissions with null `graded_at` differing only in score and
grade-match flag. -/
def subSinNota1 : Submission :=
  { user_id := 1, workflow_state := "x", submitted_at := some "2024-01-02T00:00:00Z",
    graded_at := none, score := some (ScoreV.num (mkRat 5 1)),
    grade_matches_current_submission := some false }

/-- Same facts as `subSinNota1` except score and grade-match flag. -/
def subSinNota2 : Submission :=
  { user_id := 2, workflow_state := "x", submitted_at := some "2024-01-02T00:00:00Z",
    graded_at := none, score := none,
    grade_matches_current_submission := some true }

/-- Witness for C10 at the two concrete ungraded submissions. -/
theorem c10_witness :
    clasificarCelda 5 0 777600 (some subSinNota1) = clasificarCelda 5 0 777600 (some subSinNota2) :=
  c10_score_irrelevante_sin_calificacion 5 0 777600 subSinNota1 subSinNota2 rfl rfl rfl rfl

def quitaTz (l : List (AsgInfoRow × List Celda)) :
    List (List Celda) × List EstadoInfo × List String :=
  (l.map Prod.snd, l.map (fun p => p.1.estado), l.map (fun p => p.1.tarea))

lemma lema_asgs_tz (now nld tz1 tz2 : Int) (sids : List Nat) (asgs : List Asg) :
    (procesarAsignaciones now nld tz1 sids asgs).map quitaTz =
    (procesarAsignaciones now nld tz2 sids asgs).map quitaTz := by
  induction asgs with
  | nil => rfl
  | cons a rest ih =>
    cases hda : a.due_at with
    | none => simpa only [procesarAsignaciones, hda] using ih
    | some w =>
      cases w with
      | malformed => simp only [procesarAsignaciones, hda, parseDue, Except.map]
      | valid t =>
        simp only [procesarAsignaciones, hda, parseDue]
        cases hmc : mapCeldas
            (fun sid => clasificarCelda now t (deadlineUTC t) (subsLookup a.submissions sid))
            sids with
        | error e => simp only [Except.map]
        | ok cs =>
          cases h1 : procesarAsignaciones now nld tz1 sids rest with
          | error e1 =>
            cases h2 : procesarAsignaciones now nld tz2 sids rest with
            | error e2 =>
              rw [h1, h2] at ih
              simp only [Except.map] at ih
              simp only [Except.map, Except.error.injEq] at ih ⊢
              exact ih
            | ok l2 =>
              rw [h1, h2] at ih
              simp only [Except.map] at ih
              exact absurd ih (by simp)
          | ok l1 =>
            cases h2 : procesarAsignaciones now nld tz2 sids rest with
            | error e2 =>
              rw [h1, h2] at ih
              simp only [Except.map] at ih
              exact absurd ih (by simp)
            | ok l2 =>
              rw [h1, h2] at ih
              simp only [Except.map, Except.ok.injEq] at ih ⊢
              simp only [quitaTz, Prod.mk.injEq, List.map_cons] at ih ⊢
              exact ⟨by rw [ih.1], by simp [mkAsgRow, ih.2.1], by simp [mkAsgRow, ih.2.2]⟩

theorem c3_plazo_9_dias_utc (due now nld tz1 tz2 : Int) (enr : List (Nat × String))
    (asgs : List Asg) (roles : RolInfo) :
    deadlineUTC due = due + 9 * 86400 ∧
    deadlineUTC (epocaDe 2024 1 1) = epocaDe 2024 1 10 ∧
    (procesar_curso now nld tz1 enr asgs roles).map vistaClasificacion =
      (procesar_curso now nld tz2 enr asgs roles).map vistaClasificacion := by
  refine ⟨rfl, by decide, ?_⟩
  unfold procesar_curso
  by_cases hsids : (studentIds enr).isEmpty = true
  · simp only [hsids, if_true]
  · simp only [hsids, if_false]
    have ih := lema_asgs_tz now nld tz1 tz2 (studentIds enr) asgs
    cases h1 : procesarAsignaciones now nld tz1 (studentIds enr) asgs with
    | error e1 =>
      cases h2 : procesarAsignaciones now nld tz2 (studentIds enr) asgs with
      | error e2 =>
        rw [h1, h2] at ih
        simp only [Except.map, Except.error.injEq] at ih
        simp [ih]
      | ok l2 =>
        rw [h1, h2] at ih
        simp only [Except.map] at ih
        exact absurd ih (by simp)
    | ok l1 =>
      cases h2 : procesarAsignaciones now nld tz2 (studentIds enr) asgs with
      | error e2 =>
        rw [h1, h2] at ih
        simp only [Except.map] at ih
        exact absurd ih (by simp)
      | ok l2 =>
        rw [h1, h2] at ih
        simp only [Except.map, Except.ok.injEq, quitaTz, Prod.mk.injEq] at ih
        simp [vistaClasificacion, Except.map, List.map_map]
        refine ⟨ih.1, ?_, ?_⟩
        · simpa [Function.comp] using ih.2.1
        · simpa [Function.comp] using ih.2.2

/-- Claim C5: the non-compliant count is exactly the number of matrix cells
whose label is in (UNGRADED_LATE, NOT_SUBMITTED, GRADE_MISMATCH,
GRADED_NO_SCORE); the rollup is NOT_CONFIGURED iff no assignment had a due
date, and otherwise NON_COMPLIANT iff the count is positive and COMPLIANT
iff it is zero; both are invariant under any reordering of the cells. -/
theorem c5_agregador_rollup (processed : List String) (cells cells2 : List Celda) :
    outsidePlazoCount cells = (cells.filter (fun c => esMalo c)).length ∧
    (resumenEstado processed cells = EstadoResumen.noConfigurado ↔ processed = []) ∧
    (processed ≠ [] →
      (resumenEstado processed cells = EstadoResumen.hayCosasMal ↔
        0 < outsidePlazoCount cells)) ∧
    (processed ≠ [] →
      (resumenEstado processed cells = EstadoResumen.todoBien ↔
        outsidePlazoCount cells = 0)) ∧
    (cells.Perm cells2 →
      resumenEstado processed cells = resumenEstado processed cells2 ∧
      outsidePlazoCount cells = outsidePlazoCount cells2) := by
  have hany : ∀ l : List Celda,
      l.any (fun c => esMalo c) = true ↔ 0 < outsidePlazoCount l := by
    intro l
    unfold outsidePlazoCount
    rw [List.any_eq_true, List.countP_pos_iff]
  refine ⟨List.countP_eq_length_filter _ _, ?_, ?_, ?_, ?_⟩
  · cases processed with
    | nil => simp [resumenEstado]
    | cons p ps =>
      simp only [resumenEstado, List.isEmpty_cons, Bool.false_eq_true, if_false]
      constructor
      · intro h
        split_ifs at h
      · intro h
        simp at h
  · intro hp
    have hne : processed.isEmpty = false := by
      cases processed with
      | nil => exact absurd rfl hp
      | cons p ps => simp
    simp only [resumenEstado, hne, Bool.false_eq_true, if_false]
    cases ha : cells.any (fun c => esMalo c) with
    | true =>
      simp only [if_true]
      exact ⟨fun _ => (hany cells).mp ha, fun _ => by trivial⟩
    | false =>
      simp only [Bool.false_eq_true, if_false]
      constructor
      · intro h
        simp at h
      · intro h
        rw [← hany cells] at h
        rw [ha] at h
        simp at h
  · intro hp
    have hne : processed.isEmpty = false := by
      cases processed with
      | nil => exact absurd rfl hp
      | cons p ps => simp
    simp only [resumenEstado, hne, Bool.false_eq_true, if_false]
    cases ha : cells.any (fun c => esMalo c) with
    | true =>
      simp only [if_true]
      constructor
      · intro h
        simp at h
      · intro h
        have := (hany cells).mp ha
        omega
    | false =>
      simp only [Bool.false_eq_true, if_false]
      refine ⟨fun _ => ?_, fun _ => by trivial⟩
      by_contra hc
      have : 0 < outsidePlazoCount cells := Nat.pos_of_ne_zero hc
      rw [← hany cells, ha] at this
      simp at this
  · intro hperm
    have hcount : outsidePlazoCount cells = outsidePlazoCount cells2 :=
      hperm.countP_eq _
    refine ⟨?_, hcount⟩
    unfold resumenEstado
    have : cells.any (fun c => esMalo c) = cells2.any (fun c => esMalo c) := by
      rw [Bool.eq_iff_iff, hany cells, hany cells2, hcount]
    rw [this]

/-- Witness for C5: a singleton matrix with one not-submitted cell. -/
theorem c5_witness :
    resumenEstado ["T1"] [Celda.noEntregoNada] = EstadoResumen.hayCosasMal ∧
    resumenEstado ["T1"] [Celda.noEntregoNada] = resumenEstado ["T1"] [Celda.noEntregoNada] := by
  have h := c5_agregador_rollup ["T1"] [Celda.noEntregoNada] [Celda.noEntregoNada]
  exact ⟨(h.2.2.1 (by simp)).mpr (by decide), (h.2.2.2.2 (List.Perm.refl _)).1⟩

/-- Claim C6 counterexample: with an advancing clock, the code classifies
both assignments of one course against the single instant sampled at the
start of `procesar_curso` (the second assignment is still "No iniciado"),
whereas under the resample-per-assignment reading of the spec the second
assignment would be classified against a later sample and come out
"Plazo vencido". -/
theorem c6_counterexample :
    (procesar_curso (clkAvanza 0) (clkAvanza 0) 0 [(1, "a")] asgsC6 rolesEj).map
        (fun r => r.timeline.map AsgInfoRow.estado) =
      Except.ok [EstadoInfo.enPlazo, EstadoInfo.noIniciado] ∧
    (procesar_curso_per_asg clkAvanza clkAvanza 0 0 [(1, "a")] asgsC6 rolesEj).map
        (fun r => r.timeline.map AsgInfoRow.estado) =
      Except.ok [EstadoInfo.enPlazo, EstadoInfo.plazoVencido] := by
  constructor
  · decide
  · decide

/-- Claim C6 (amended): the current instant is sampled once per course
invocation -- every assignment of a course is classified against that one
sample -- and the batch resamples per course, so two courses (not two
assignments of one course) may see different instants. -/
theorem c6_now_una_vez_por_curso :
    (∀ (now nld tz : Int) (enr : List (Nat × String)) (asgs : List Asg) (roles : RolInfo),
      (studentIds enr).isEmpty = false →
      (∀ a ∈ asgs, a.due_at ≠ some DueWire.malformed) →
      (∀ a ∈ asgs, ∀ s ∈ a.submissions, scoreOkS s = true) →
      ∃ r, procesar_curso now nld tz enr asgs roles = Except.ok r ∧
        r.timeline = asgs.filterMap (filaLineaDe now nld tz)) ∧
    (∀ (clock lclock : Nat → Int) (tz : Int) (k : Nat) (c : CourseSpec) (cs : List CourseSpec),
      c.found = true → (studentIds c.enrollments).isEmpty = false →
      runBatchAux clock lclock tz k (c :: cs) =
        (match procesaYResume clock lclock tz k c with
         | Except.ok row => [row]
         | Except.error _ => []) ++ runBatchAux clock lclock tz (k + 1) cs) := by
  constructor
  · intro now nld tz enr asgs roles hsids hdue hsc
    obtain ⟨pares, hp, hmap⟩ := lema_asgs_ok now nld tz (studentIds enr) asgs hdue hsc
    have hrun : procesar_curso now nld tz enr asgs roles =
        Except.ok { df := some (pares.map Prod.snd)
                    timeline := pares.map Prod.fst
                    processed := (pares.map Prod.fst).map AsgInfoRow.tarea
                    warnings := asgs.filterMap (fun a =>
                      match a.due_at with
                      | none => some (Aviso.missingDueDate a.name)
                      | some _ => none)
                    info := some roles } := by
      simp [procesar_curso, hsids, hp]
    exact ⟨_, hrun, hmap⟩
  · intro clock lclock tz k c cs hfound hempty
    cases hres : procesaYResume clock lclock tz k c with
    | error e => simp [runBatchAux, hfound, hres, siguienteMuestra, hempty]
    | ok row => simp [runBatchAux, hfound, hres, siguienteMuestra, hempty]

/-- The single assignment of course "111". -/
def asgT1 : Asg :=
  { id := 1, name := "T1", due_at := some (DueWire.valid 0), submissions := [] }

/-- Witness for the amended C6 at a concrete one-assignment course. -/
theorem c6_witness :
    (∃ r, procesar_curso 1000 0 0 [(1, "Ana")] [asgT1] rolesEj = Except.ok r ∧
       r.timeline = [asgT1].filterMap (filaLineaDe 1000 0 0)) ∧
    runBatchAux clkConst clkConst 0 0 [curso111] =
      (match procesaYResume clkConst clkConst 0 0 curso111 with
       | Except.ok row => [row]
       | Except.error _ => []) ++ runBatchAux clkConst clkConst 0 1 [] :=
  ⟨c6_now_una_vez_por_curso.1 1000 0 0 [(1, "Ana")] [asgT1] rolesEj (by decide) (by decide)
      (by decide),
   c6_now_una_vez_por_curso.2 clkConst clkConst 0 0 curso111 [] rfl (by decide)⟩

/-- Claim C7 counterexample: a batch of three found courses in which the
middle one raises during processing yields only two summary rows -- the
failing course is caught but contributes no row, so the summary does not
have one row per input id. -/
theorem c7_counterexample :
    runBatch clkConst clkConst 0 [curso111, cursoBad, curso222] =
      [ResumenRow.fila "111" EstadoResumen.todoBien 0,
       ResumenRow.fila "222" EstadoResumen.todoBien 0] ∧
    (runBatch clkConst clkConst 0 [curso111, cursoBad, curso222]).length ≠
      [curso111, cursoBad, curso222].length := by
  constructor
  · decide
  · decide

/-- Claim C7 (amended): rows appear in input order and each course is
handled in isolation: a not-found course contributes an "Inexistente" row,
a course processed without exception contributes exactly its row, and a
course whose processing raises contributes no row while the remaining
courses are still processed. -/
theorem c7_fila_por_curso_salvo_error :
    (∀ (clock lclock : Nat → Int) (tz : Int) (k : Nat) (c : CourseSpec) (cs : List CourseSpec),
      c.found = false →
      runBatchAux clock lclock tz k (c :: cs) =
        ResumenRow.inexistente c.cid :: runBatchAux clock lclock tz k cs) ∧
    (∀ (clock lclock : Nat → Int) (tz : Int) (k : Nat) (c : CourseSpec)
        (cs : List CourseSpec) (row : ResumenRow),
      c.found = true → procesaYResume clock lclock tz k c = Except.ok row →
      runBatchAux clock lclock tz k (c :: cs) =
        row :: runBatchAux clock lclock tz (siguienteMuestra k c) cs) ∧
    (∀ (clock lclock : Nat → Int) (tz : Int) (k : Nat) (c : CourseSpec)
        (cs : List CourseSpec) (e : PyError),
      c.found = true → procesaYResume clock lclock tz k c = Except.error e →
      runBatchAux clock lclock tz k (c :: cs) =
        runBatchAux clock lclock tz (siguienteMuestra k c) cs) := by
  refine ⟨?_, ?_, ?_⟩
  · intro clock lclock tz k c cs hfound
    simp [runBatchAux, hfound]
  · intro clock lclock tz k c cs row hfound hok
    simp [runBatchAux, hfound, hok]
  · intro clock lclock tz k c cs e hfound herr
    simp [runBatchAux, hfound, herr]

/-- Witness for the amended C7: the erroring course "bad" is skipped and
the next course still produces its row. -/
theorem c7_witness :
    runBatchAux clkConst clkConst 0 0 [cursoBad, curso222] =
      runBatchAux clkConst clkConst 0 (siguienteMuestra 0 cursoBad) [curso222] :=
  c7_fila_por_curso_salvo_error.2.2 clkConst clkConst 0 0 cursoBad [curso222]
    PyError.valueError rfl (by decide)

/-- The result `procesar_curso` returns for a course with no students:
`None` DataFrame, empty lists, one warning, empty role dict. -/
def resultadoVacio : CursoResult :=
  { df := none, timeline := [], processed := [],
    warnings := [Aviso.emptyRoster], info := none }

/-- Claim C8: as specified, a course with no student enrollments makes
`procesar_curso` return the empty report with a warning (not an error);
but the batch code then indexes the empty role dict, raising `KeyError`,
so the summary row of that course is dropped (only the following courses still
get rows) -- the empty-roster outcome is fatal to the summary row of that
course, contradicting the claim that it is non-fatal. -/
theorem c8_lista_vacia_pierde_resumen :
    procesar_curso 1000 1000 0 [] [] rolesEj = Except.ok resultadoVacio ∧
    resumenDeCurso "vacio" resultadoVacio = Except.error PyError.keyError ∧
    runBatch clkConst clkConst 0 [cursoVacio, curso222] =
      [ResumenRow.fila "222" EstadoResumen.todoBien 0] := by
  refine ⟨?_, ?_, ?_⟩
  · decide
  · decide
  · decide

/-- An assignment with a malformed due-date string. -/
def asgMalDue : Asg :=
  { id := 9, name := "TMal", due_at := some DueWire.malformed, submissions := [] }

/-- An assignment with a well-formed due date, listed after the malformed
one. -/
def asgBuenaDue : Asg :=
  { id := 10, name := "TBuena", due_at := some (DueWire.valid 0), submissions := [] }

/-- Claim C9 counterexample: a malformed due date makes the processing of the whole
course raise `ValueError` -- the following assignment of the same
course is never classified and no warning is recorded, instead of only
that assignment being skipped with a warning. -/
theorem c9_counterexample :
    procesar_curso 1000 0 0 [(1, "Ana")] [asgMalDue, asgBuenaDue] rolesEj =
      Except.error PyError.valueError := by
  decide

/-- Claim C9 (amended): a malformed due-date timestamp aborts the processing of the
entire course with `ValueError` (no remaining assignment of that
course is classified and no warning is emitted for it); the batch loop
catches the exception, drops the summary row of the course, and continues with
the remaining courses, so the batch itself never crashes. -/
theorem c9_fecha_malformada_aborta_curso :
    (∀ (now nld tz : Int) (enr : List (Nat × String)) (a : Asg) (rest : List Asg)
        (roles : RolInfo),
      a.due_at = some DueWire.malformed → (studentIds enr).isEmpty = false →
      procesar_curso now nld tz enr (a :: rest) roles = Except.error PyError.valueError) ∧
    (∀ (clock lclock : Nat → Int) (tz : Int) (k : Nat) (c : CourseSpec)
        (cs : List CourseSpec) (e : PyError),
      c.found = true → procesaYResume clock lclock tz k c = Except.error e →
      runBatchAux clock lclock tz k (c :: cs) =
        runBatchAux clock lclock tz (siguienteMuestra k c) cs) := by
  constructor
  · intro now nld tz enr a rest roles hdue hsids
    simp [procesar_curso, hsids, procesarAsignaciones, hdue, parseDue]
  · intro clock lclock tz k c cs e hfound herr
    simp [runBatchAux, hfound, herr]

/-- Witness for the amended C9 at a concrete malformed-due-date course. -/
theorem c9_witness :
    procesar_curso 1000 0 0 [(1, "Ana")] [asgMalDue] rolesEj =
      Except.error PyError.valueError :=
  c9_fecha_malformada_aborta_curso.1 1000 0 0 [(1, "Ana")] asgMalDue [] rolesEj rfl (by decide)
